import Mathlib

/-!
Shallow embedding of the salamander plugin browser core
(src/plugin_browser.c, src/ssh_manager.c).

Strings model C char buffers (ASCII assumed); `strTake` models the
truncation that `strncpy`/`snprintf` perform on fixed-size buffers.
The remote device is modelled as an oracle: a list of outcomes consumed
by successive `SshExecute` calls, plus one outcome for the single
`SshCopyToDevice` invocation an install performs.  Float progress values
are modelled as rationals (the constants involved are exactly
representable orderings either way).
-/

set_option maxRecDepth 8000

namespace Salamander

/-- Model of `SSH_PLUGIN_PATH` from ssh_manager.h. -/
def sshPluginPath : String := "/tmp/plugins"

/-- Model of `SshConnectionStatus` from ssh_manager.h. -/
inductive SshConnectionStatus
  | unknown
  | connected
  | disconnected
  | checking
deriving DecidableEq, Repr

/-- Model of `SshResult` from ssh_manager.h (`success`, `output`, `exitCode`). -/
structure SshResult where
  success : Bool
  output : String
  exitCode : Int
deriving DecidableEq, Repr

/-- Outcome of one `popen`ed remote command, as seen by `SshExecute`:
either `popen` itself failed, or the command ran and produced captured
output and a `WEXITSTATUS` exit code. -/
inductive ExecOutcome
  | popenFail
  | ran (output : String) (exitCode : Int)
deriving DecidableEq, Repr

/-- The device-side oracle: outcomes consumed by successive `SshExecute`
calls, in order. -/
abbrev ExecOracle := List ExecOutcome

/-- Model of `SshExecute` (ssh_manager.c:97): returns the result of the next
command and the remaining oracle.  On `popen` failure the C code returns
`success=false`, output "Failed to execute command", exitCode -1 (the
initializer); an exhausted oracle is modelled the same way.  Otherwise
`success = (exitCode == 0)`. -/
def sshExecute (env : ExecOracle) : SshResult × ExecOracle :=
  match env with
  | [] => (⟨false, "Failed to execute command", -1⟩, [])
  | ExecOutcome.popenFail :: rest => (⟨false, "Failed to execute command", -1⟩, rest)
  | ExecOutcome.ran out code :: rest => (⟨code == 0, out, code⟩, rest)

/-- Model of `strstr(hay, needle) != NULL`: substring containment on char lists. -/
def strContains (hay needle : String) : Bool :=
  hay.data.tails.any (fun t => needle.data.isPrefixOf t)

/-- Model of `strncpy`/`snprintf` truncation to an `n`-char buffer (the buffer
holds `n` chars plus the terminating NUL). -/
def strTake (s : String) (n : Nat) : String := String.mk (s.data.take n)

/-- Model of `atol`: skip leading spaces, optional sign, then leading digits
(0 if none). -/
def readDigits : List Char → Nat → Nat
  | c :: cs, acc => if c.isDigit then readDigits cs (acc * 10 + (c.toNat - 48)) else acc
  | [], acc => acc

/-- C `atol` on the captured output string. -/
def atol (s : String) : Int :=
  match s.data.dropWhile (fun c => c.isWhitespace) with
  | '-' :: rest => - (readDigits rest 0 : Int)
  | '+' :: rest => (readDigits rest 0 : Int)
  | cs => (readDigits cs 0 : Int)

/-- Model of `SshListDirectory` (ssh_manager.c:130): one `SshExecute` of
`ls -1 <path> 2>/dev/null`. -/
def sshListDirectory (remotePath : String) (env : ExecOracle) :
    SshResult × ExecOracle × List String :=
  let cmd := "ls -1 " ++ remotePath ++ " 2>/dev/null"
  let r := sshExecute env
  (r.1, r.2, [cmd])

/-- Model of `SshGetFileSize` (ssh_manager.c:193): runs
`stat -c %s '<path>' 2>/dev/null || echo -1`; returns -1 when the command
failed, else `atol` of the output. -/
def sshGetFileSize (remotePath : String) (env : ExecOracle) :
    Int × ExecOracle × List String :=
  let cmd := "stat -c %s '" ++ remotePath ++ "' 2>/dev/null || echo -1"
  let r := sshExecute env
  (if !r.1.success then -1 else atol r.1.output, r.2, [cmd])

/-- Model of `SshFileExists` (ssh_manager.c:204): runs
`test -f '<path>' && echo exists`; true iff the command succeeded and
its output contains "exists". -/
def sshFileExists (remotePath : String) (env : ExecOracle) :
    Bool × ExecOracle × List String :=
  let cmd := "test -f '" ++ remotePath ++ "' && echo exists"
  let r := sshExecute env
  (r.1.success && strContains r.1.output "exists", r.2, [cmd])

/-- Outcome of the single `popen`ed scp command inside
`SshCopyToDevice`. -/
inductive CopyOutcome
  | popenFail
  | ran (output : String) (exitCode : Int)
deriving DecidableEq, Repr

/-- Model of `SshCopyToDevice` (ssh_manager.c:136).  `readable` models
`access(localPath, R_OK) == 0`.  Returns overall success and the
sequence of `(fraction, message)` progress-callback invocations, in
order. -/
def sshCopyToDevice (readable : Bool) (outcome : CopyOutcome) :
    Bool × List (ℚ × String) :=
  if !readable then
    (false, [(0, "Local file not found")])
  else
    match outcome with
    | CopyOutcome.popenFail =>
        (false, [(1/10, "Starting transfer..."), (3/10, "Transferring..."),
                 (0, "Transfer failed")])
    | CopyOutcome.ran out code =>
        if code == 0 then
          (true, [(1/10, "Starting transfer..."), (3/10, "Transferring..."),
                  (9/10, "Finishing..."), (1, "Complete")])
        else
          (false, [(1/10, "Starting transfer..."), (3/10, "Transferring..."),
                   (9/10, "Finishing..."),
                   (0, if out ≠ "" then out else "Transfer failed")])

/-- What the connection probe in `SshCheckConnection` observed:
`popen` failure, no line read by `fgets`, or a first output line. -/
inductive ProbeOutcome
  | popenFail
  | noOutput
  | line (s : String)
deriving DecidableEq, Repr

/-- Model of `SshCheckConnection` (ssh_manager.c:60): the status it leaves behind.
`fgets(output, 64, fp)` reads at most 63 chars of the first line; the
check is `strstr(output, "ok") != NULL`. -/
def sshCheckConnection (probe : ProbeOutcome) : SshConnectionStatus :=
  match probe with
  | ProbeOutcome.popenFail => SshConnectionStatus.disconnected
  | ProbeOutcome.noOutput => SshConnectionStatus.disconnected
  | ProbeOutcome.line s =>
      if strContains (strTake s 63) "ok" then SshConnectionStatus.connected
      else SshConnectionStatus.disconnected

/-! ## Plugin browser data model (plugin_browser.h) -/

/-- Model of `MAX_PLUGINS` from plugin_browser.h. -/
def maxPlugins : Nat := 64

/-- Model of `PluginStatus` from plugin_browser.h. -/
inductive PluginStatus
  | localOnly
  | installed
  | deviceOnly
deriving DecidableEq, Repr

/-- Model of `PluginInfo` from plugin_browser.h; string fields model the fixed
char buffers (name 64, displayName 64, paths 512). -/
structure PluginInfo where
  name : String
  displayName : String
  localPath : String
  remotePath : String
  localSize : Int
  remoteSize : Int
  status : PluginStatus
deriving DecidableEq, Repr

/-- Model of `PluginOperation` from plugin_browser.h. -/
inductive PluginOperation
  | opNone
  | installing
  | uninstalling
  | refreshing
deriving DecidableEq, Repr

/-- Model of `PluginOpState` from plugin_browser.h (message is a 256-char
buffer, pluginName a 64-char buffer). -/
structure PluginOpState where
  operation : PluginOperation
  pluginName : String
  progress : ℚ
  message : String
  complete : Bool
  success : Bool
deriving DecidableEq, Repr

/-- Model of `snprintf` into `g_opState.message` (256 bytes). -/
def msgTake (s : String) : String := strTake s 255

/-- The tail of `cs` after the last '/', the whole list when none
(`strrchr(path, '/')` then `base + 1`). -/
def afterLastSlash (cs : List Char) : List Char :=
  (cs.reverse.takeWhile (fun c => c ≠ '/')).reverse

/-- Truncate `cs` at its last '.' (C writes `'\0'` at `strrchr(s, '.')`);
unchanged when there is no dot. -/
def cutAtLastDot (cs : List Char) : List Char :=
  match cs.reverse.dropWhile (fun c => c ≠ '.') with
  | [] => cs
  | _ :: rest => rest.reverse

/-- Model of `ExtractPluginName` (plugin_browser.c:47): basename after the last
'/', `strncpy` into a 64-byte buffer, then strip from the last dot. -/
def extractPluginName (path : String) : String :=
  String.mk (cutAtLastDot ((afterLastSlash path.data).take 63))

/-- The `.so` filter used by both scans:
`len > 3 && strcmp(name + len - 3, ".so") == 0`. -/
def isSoFile (fname : String) : Bool :=
  fname.length > 3 && fname.data.drop (fname.length - 3) == ['.', 's', 'o']

/-- Body of the character loop of `MakeDisplayName`
(plugin_browser.c:30): underscores become spaces and set
`capitalizeNext`; an alphabetic char is uppercased when
`capitalizeNext`; every emitted non-underscore clears
`capitalizeNext`.  `fuel` is the remaining room in the 64-byte output
buffer (`outIdx < maxLen - 1`). -/
def makeDisplayNameAux : List Char → Bool → Nat → List Char
  | [], _, _ => []
  | _ :: _, _, 0 => []
  | c :: cs, capNext, fuel + 1 =>
      if c = '_' then ' ' :: makeDisplayNameAux cs true fuel
      else if capNext && c.isAlpha then c.toUpper :: makeDisplayNameAux cs false fuel
      else c :: makeDisplayNameAux cs false fuel

/-- Model of `MakeDisplayName` (plugin_browser.c:19): `strncpy` the filename into
a 64-byte buffer, strip from the last dot, then run the capitalize
loop into a 64-byte output buffer. -/
def makeDisplayName (filename : String) : String :=
  String.mk (makeDisplayNameAux (cutAtLastDot (filename.data.take 63)) true 63)

/-- The zero-filled `PluginInfo` that `FindOrCreatePlugin`
(plugin_browser.c:82) creates: `memset` to zero, `strncpy` the name,
display name computed, status `PLUGIN_LOCAL_ONLY`. -/
def emptyPlugin (name : String) : PluginInfo :=
  { name := strTake name 63
    displayName := makeDisplayName name
    localPath := ""
    remotePath := ""
    localSize := 0
    remoteSize := 0
    status := PluginStatus.localOnly }

/-- The find-or-create part of `FindOrCreatePlugin`: the index of the
entry with this name, appending a fresh entry when absent and the list
is below `MAX_PLUGINS`; `none` when the list is full. -/
def findOrCreateIdx (ps : List PluginInfo) (name : String) :
    Option (List PluginInfo × Nat) :=
  match ps.findIdx? (fun p => p.name == name) with
  | some i => some (ps, i)
  | none =>
      if ps.length < maxPlugins then some (ps ++ [emptyPlugin name], ps.length)
      else none

/-- In-place mutation through the pointer `FindOrCreatePlugin`
returned. -/
def modifyAt (ps : List PluginInfo) (i : Nat) (f : PluginInfo → PluginInfo) :
    List PluginInfo :=
  ps.set i (f (ps.getD i (emptyPlugin "")))

/-- One `readdir` entry of `ScanLocalPlugins` (plugin_browser.c:121):
for a `.so` file, find/create the entry, set `localPath` to
`<localDir>/<fname>` (snprintf, 512-byte buffer) and, when `stat`
succeeds, `localSize`. -/
def scanLocalStep (localDir : String) (statSize : String → Option Int)
    (ps : List PluginInfo) (fname : String) : List PluginInfo :=
  if isSoFile fname then
    let name := extractPluginName fname
    match findOrCreateIdx ps name with
    | none => ps
    | some (ps', i) =>
        let path := strTake (localDir ++ "/" ++ fname) 511
        modifyAt ps' i (fun p =>
          match statSize path with
          | some sz => { p with localPath := path, localSize := sz }
          | none => { p with localPath := path })
  else ps

/-- Model of `ScanLocalPlugins` (plugin_browser.c:104): nothing when no local
path is configured or `opendir` fails (`dirEntries = none`); otherwise
fold over the directory entries. -/
def scanLocalPlugins (localDir : String) (dirEntries : Option (List String))
    (statSize : String → Option Int) (ps : List PluginInfo) : List PluginInfo :=
  if localDir = "" then ps
  else
    match dirEntries with
    | none => ps
    | some entries => entries.foldl (scanLocalStep localDir statSize) ps

/-- One listing line of `ScanRemotePlugins` (plugin_browser.c:165):
basename the line; for a `.so` file, find/create the entry, set
`remotePath` to `<SSH_PLUGIN_PATH>/<name>.so`, query the remote size,
and set status from local presence. -/
def scanRemoteStep (st : List PluginInfo × ExecOracle × List String)
    (line : String) : List PluginInfo × ExecOracle × List String :=
  let base := String.mk (afterLastSlash line.data)
  if isSoFile base then
    let name := extractPluginName base
    match findOrCreateIdx st.1 name with
    | none => st
    | some (ps', i) =>
        let rpath := strTake (sshPluginPath ++ "/" ++ name ++ ".so") 511
        let q := sshGetFileSize rpath st.2.1
        (modifyAt ps' i (fun p =>
           { p with
              remotePath := rpath
              remoteSize := q.1
              status := if p.localPath ≠ "" then PluginStatus.installed
                        else PluginStatus.deviceOnly }),
         q.2.1, st.2.2 ++ q.2.2)
  else st

/-- Model of `ScanRemotePlugins` (plugin_browser.c:149): skipped unless the
cached status is Connected; one `SshListDirectory` of
`<SSH_PLUGIN_PATH>/*.so`; on success, `strtok` the output on newlines
(maximal non-empty tokens) and fold over the lines. -/
def scanRemotePlugins (status : SshConnectionStatus) (ps : List PluginInfo)
    (env : ExecOracle) : List PluginInfo × ExecOracle × List String :=
  if status ≠ SshConnectionStatus.connected then (ps, env, [])
  else
    let r := sshListDirectory (sshPluginPath ++ "/*.so") env
    if !r.1.success then (ps, r.2.1, r.2.2)
    else
      ((r.1.output.splitOn "\n").filter (fun l => l ≠ "")).foldl
        scanRemoteStep (ps, r.2.1, r.2.2)

/-- Model of `PluginBrowserFindPlugin` (plugin_browser.c:229). -/
def pluginBrowserFindPlugin (ps : List PluginInfo) (name : String) :
    Option PluginInfo :=
  ps.find? (fun p => p.name == name)

/-- Model of `PluginBrowserIsBusy` (plugin_browser.c:402). -/
def pluginBrowserIsBusy (st : PluginOpState) : Bool :=
  st.operation != PluginOperation.opNone

/-- Result of `PluginBrowserRefresh`: new inventory, final operation
state, remaining oracle, remote commands issued. -/
structure RefreshResult where
  plugins : List PluginInfo
  opState : PluginOpState
  env : ExecOracle
  cmds : List String
deriving Repr

/-- Model of `PluginBrowserRefresh` (plugin_browser.c:196): marks refreshing,
resets the inventory (`count = 0`), local scan, remote scan, then
unconditionally finalizes `complete=true`, `success=true`,
`progress=1`, `operation=OP_NONE`. -/
def pluginBrowserRefresh (localDir : String) (dirEntries : Option (List String))
    (statSize : String → Option Int) (status : SshConnectionStatus)
    (env : ExecOracle) (st : PluginOpState) : RefreshResult :=
  let st1 := { st with
                operation := PluginOperation.refreshing
                progress := 0
                message := msgTake "Scanning local plugins..." }
  let ps1 := scanLocalPlugins localDir dirEntries statSize []
  let st2 := { st1 with
                progress := 1/2
                message := msgTake "Scanning device plugins..." }
  let res := scanRemotePlugins status ps1 env
  { plugins := res.1
    opState := { st2 with
                  operation := PluginOperation.opNone
                  complete := true
                  success := true
                  progress := 1
                  message := msgTake ("Found " ++ toString res.1.length ++ " plugins") }
    env := res.2.1
    cmds := res.2.2 }

/-- Environment for one `PluginBrowserInstall` call: the `SshExecute`
oracle plus the outcome of the single `SshCopyToDevice` it performs. -/
structure InstallEnv where
  exec : ExecOracle
  copyReadable : Bool
  copyOutcome : CopyOutcome
deriving Repr

/-- Result of `PluginBrowserInstall`: return value, final operation
state, remaining oracle, `SshExecute` commands issued, whether
`SshCopyToDevice` was invoked (and its destination path), and every
value successively assigned to `g_opState.progress`. -/
structure InstallResult where
  ret : Bool
  opState : PluginOpState
  env : ExecOracle
  cmds : List String
  copyAttempted : Bool
  copyDst : String
  progressWrites : List ℚ
deriving Repr

/-- Model of `InstallProgressCallback` (plugin_browser.c:239) applied to each
`(fraction, message)` event of the copy, in order. -/
def applyProgressEvents (st : PluginOpState) (evs : List (ℚ × String)) :
    PluginOpState :=
  evs.foldl (fun s e => { s with progress := e.1, message := msgTake e.2 }) st

/-- Model of `PluginBrowserInstall` (plugin_browser.c:245). -/
def pluginBrowserInstall (plugins : List PluginInfo) (pluginName : String)
    (status : SshConnectionStatus) (env : InstallEnv) (st : PluginOpState) :
    InstallResult :=
  match pluginBrowserFindPlugin plugins pluginName with
  | none =>
      { ret := false
        opState := { st with message := msgTake "Plugin not found locally" }
        env := env.exec, cmds := [], copyAttempted := false, copyDst := ""
        progressWrites := [] }
  | some plugin =>
      if plugin.localPath = "" then
        { ret := false
          opState := { st with message := msgTake "Plugin not found locally" }
          env := env.exec, cmds := [], copyAttempted := false, copyDst := ""
          progressWrites := [] }
      else if status ≠ SshConnectionStatus.connected then
        { ret := false
          opState := { st with message := msgTake "Device not connected" }
          env := env.exec, cmds := [], copyAttempted := false, copyDst := ""
          progressWrites := [] }
      else
        let st1 := { st with
                      operation := PluginOperation.installing
                      progress := 0
                      complete := false
                      pluginName := strTake pluginName 63
                      message := msgTake ("Installing " ++ pluginName ++ "...") }
        -- Step 1: enable read-write mode (result only logged)
        let st2 := { st1 with progress := 1/10
                              message := msgTake "Enabling write mode..." }
        let env1 := (sshExecute env.exec).2
        -- Step 2: ensure remote directory exists (result ignored)
        let st3 := { st2 with progress := 2/10
                              message := msgTake "Creating directory..." }
        let env2 := (sshExecute env1).2
        -- Step 3: build remote path and copy the file
        let remotePath := strTake (sshPluginPath ++ "/" ++ pluginName ++ ".so") 511
        let copyRes := sshCopyToDevice env.copyReadable env.copyOutcome
        let success := copyRes.1
        let st4 := applyProgressEvents st3 copyRes.2
        -- Step 4: sync filesystem, only on copy success
        let st5 := if success then
                     { st4 with progress := 19/20, message := msgTake "Syncing..." }
                   else st4
        let env3 := if success then (sshExecute env2).2 else env2
        let syncCmds := if success then ["sync"] else ([] : List String)
        let st6 := { st5 with
                      complete := true
                      success := success
                      operation := PluginOperation.opNone }
        let st7 := if success then
                     { st6 with message := msgTake ("Installed " ++ pluginName) }
                   else st6
        { ret := success
          opState := st7
          env := env3
          cmds := ["mount -o remount,rw /", "mkdir -p " ++ sshPluginPath] ++ syncCmds
          copyAttempted := true
          copyDst := remotePath
          progressWrites := [0, 1/10, 2/10] ++ copyRes.2.map Prod.fst ++
                            (if success then [(19/20 : ℚ)] else []) }

/-- Result of `PluginBrowserUninstall`. -/
structure UninstallResult where
  ret : Bool
  opState : PluginOpState
  env : ExecOracle
  cmds : List String
  progressWrites : List ℚ
deriving Repr

/-- The cleanup command `PluginBrowserUninstall` builds
(plugin_browser.c:360). -/
def uninstallCleanupCmd (pluginName : String) : String :=
  "rm -rf /var/lib/llizard/plugins/" ++ pluginName ++ " 2>/dev/null || true; " ++
  "rm -rf /tmp/llizard/" ++ pluginName ++ " 2>/dev/null || true; " ++
  "rm -f /etc/llizard/plugins/" ++ pluginName ++ ".conf 2>/dev/null || true"

/-- Model of `PluginBrowserUninstall` (plugin_browser.c:308). -/
def pluginBrowserUninstall (plugins : List PluginInfo) (pluginName : String)
    (status : SshConnectionStatus) (env : ExecOracle) (st : PluginOpState) :
    UninstallResult :=
  match pluginBrowserFindPlugin plugins pluginName with
  | none =>
      { ret := false
        opState := { st with message := msgTake "Plugin not installed on device" }
        env := env, cmds := [], progressWrites := [] }
  | some plugin =>
      if plugin.remotePath = "" then
        { ret := false
          opState := { st with message := msgTake "Plugin not installed on device" }
          env := env, cmds := [], progressWrites := [] }
      else if status ≠ SshConnectionStatus.connected then
        { ret := false
          opState := { st with message := msgTake "Device not connected" }
          env := env, cmds := [], progressWrites := [] }
      else
        let st1 := { st with
                      operation := PluginOperation.uninstalling
                      progress := 0
                      complete := false
                      pluginName := strTake pluginName 63
                      message := msgTake ("Uninstalling " ++ pluginName ++ "...") }
        -- Step 1: enable read-write mode (result only logged)
        let st2 := { st1 with progress := 1/10
                              message := msgTake "Enabling write mode..." }
        let env1 := (sshExecute env).2
        -- Step 2: stop the service, then kill the process (results ignored)
        let st3 := { st2 with progress := 2/10
                              message := msgTake "Stopping service..." }
        let env2 := (sshExecute env1).2
        let env3 := (sshExecute env2).2
        -- Step 3: delete the plugin file (result only logged)
        let st4 := { st3 with progress := 4/10
                              message := msgTake "Deleting plugin..." }
        let deleteCmd := "rm -f '" ++ plugin.remotePath ++ "'"
        let env4 := (sshExecute env3).2
        -- Step 4: best-effort cleanup of config/cache paths
        let st5 := { st4 with progress := 6/10
                              message := msgTake "Cleaning up..." }
        let env5 := (sshExecute env4).2
        -- Step 5: sync filesystem
        let st6 := { st5 with progress := 8/10, message := msgTake "Syncing..." }
        let env6 := (sshExecute env5).2
        -- Step 6: restart the service
        let st7 := { st6 with progress := 9/10
                              message := msgTake "Restarting service..." }
        let env7 := (sshExecute env6).2
        -- Verify the file is actually deleted
        let check := sshFileExists plugin.remotePath env7
        let success := !check.1
        let st8 := { st7 with
                      complete := true
                      success := success
                      progress := 1
                      operation := PluginOperation.opNone
                      message := msgTake (if success then "Uninstalled " ++ pluginName
                                          else "Failed to uninstall " ++ pluginName) }
        { ret := success
          opState := st8
          env := check.2.1
          cmds := ["mount -o remount,rw /",
                   "sv stop llizardgui 2>/dev/null || true",
                   "pkill -f llizardgui-host 2>/dev/null || true",
                   deleteCmd,
                   uninstallCleanupCmd pluginName,
                   "sync",
                   "sv start llizardgui 2>/dev/null || true"] ++ check.2.2
          progressWrites := [0, 1/10, 2/10, 4/10, 6/10, 8/10, 9/10, 1] }

/-! ## Spec-side definitions for refinement-style comparisons -/

/-- One character of the amended display-name transform: `cp.1` is the
character, `cp.2` its predecessor ('_' virtually precedes the first
character). -/
def displayStepChar (cp : Char × Char) : Char :=
  if cp.1 = '_' then ' '
  else if cp.2 == '_' && cp.1.isAlpha then cp.1.toUpper
  else cp.1

/-- Amended-spec display-name transform: strip from the last dot, then
map each character: '_' becomes ' '; an alphabetic character is
uppercased exactly when it is the first character or immediately
follows an underscore; everything else is copied unchanged. -/
def displayNameAmendedSpec (filename : String) : String :=
  String.mk (((cutAtLastDot (filename.data.take 63)).zip
    ('_' :: cutAtLastDot (filename.data.take 63))).map displayStepChar)

/-! ## Helper lemmas -/

theorem length_dropWhileLe (p : Char → Bool) :
    ∀ (l : List Char), (l.dropWhile p).length ≤ l.length
  | [] => le_refl _
  | c :: cs => by
      by_cases h : p c = true
      · rw [List.dropWhile_cons_of_pos h]
        exact le_trans (length_dropWhileLe p cs) (Nat.le_succ _)
      · rw [List.dropWhile_cons_of_neg h]

theorem length_cutAtLastDot_le (cs : List Char) :
    (cutAtLastDot cs).length ≤ cs.length := by
  unfold cutAtLastDot
  cases h : cs.reverse.dropWhile (fun c => c ≠ '.') with
  | nil => exact le_refl _
  | cons a rest =>
      have h1 := length_dropWhileLe (fun c => c ≠ '.') cs.reverse
      rw [h] at h1
      simp only [List.length_cons, List.length_reverse] at h1
      simp only [List.length_reverse]
      omega

theorem makeDisplayNameAux_eq_zip (cs : List Char) : ∀ (prev : Char) (fuel : Nat),
    cs.length ≤ fuel →
    makeDisplayNameAux cs (prev == '_') fuel =
      (cs.zip (prev :: cs)).map displayStepChar := by
  induction cs with
  | nil => intro prev fuel _; simp [makeDisplayNameAux]
  | cons c cs ih =>
      intro prev fuel h
      cases fuel with
      | zero => simp at h
      | succ f =>
          have hf : cs.length ≤ f := by simp at h; omega
          by_cases hc : c = '_'
          · subst hc
            simp only [makeDisplayNameAux, if_pos rfl, List.zip_cons_cons,
              List.map_cons, displayStepChar, if_pos rfl]
            have := ih '_' f hf
            simp only [beq_self_eq_true] at this ⊢
            simp [this]
          · have hcb : (c == '_') = false := by simp [hc]
            have tail := ih c f hf
            rw [hcb] at tail
            by_cases hcap : ((prev == '_') && c.isAlpha) = true
            · simp only [makeDisplayNameAux, if_neg hc, if_pos hcap,
                List.zip_cons_cons, List.map_cons]
              rw [tail]
              simp [displayStepChar, hc, hcap]
            · simp only [makeDisplayNameAux, if_neg hc, if_neg hcap,
                List.zip_cons_cons, List.map_cons]
              rw [tail]
              simp only [displayStepChar, if_neg hc]
              rw [if_neg hcap]

theorem makeDisplayName_eq_amended (f : String) :
    makeDisplayName f = displayNameAmendedSpec f := by
  have hlen : (cutAtLastDot (f.data.take 63)).length ≤ 63 :=
    le_trans (length_cutAtLastDot_le _)
      (by rw [List.length_take]; exact min_le_left _ _)
  have h := makeDisplayNameAux_eq_zip (cutAtLastDot (f.data.take 63)) '_' 63 hlen
  simp only [beq_self_eq_true] at h
  unfold makeDisplayName displayNameAmendedSpec
  rw [h]

/-! ## Claim C8 — display-name transform -/

/-- C8 counterexample: the claim predicts that the alphabetic run "b"
in "a2b.so" is capitalized ("A2B"); the code leaves a letter following
a non-underscore, non-letter character lowercase, producing "A2b". -/
theorem c8_counterexample :
    makeDisplayName "a2b.so" = "A2b" ∧ makeDisplayName "a2b.so" ≠ "A2B" := by
  decide

/-- C8 (amended): the display name strips from the last dot, turns each
underscore into a space, and uppercases an alphabetic character exactly
when it is the first character or immediately follows an underscore
(not at the start of every alphabetic run); all other characters are
copied as-is.  In particular "now_playing.so" maps to "Now Playing",
"wifi.so" to "Wifi", and "a_b_c.so" to "A B C". -/
theorem c8_displayName_amended :
    (∀ f, makeDisplayName f = displayNameAmendedSpec f) ∧
    makeDisplayName "now_playing.so" = "Now Playing" ∧
    makeDisplayName "wifi.so" = "Wifi" ∧
    makeDisplayName "a_b_c.so" = "A B C" := by
  refine ⟨makeDisplayName_eq_amended, by decide, by decide, by decide⟩

/-! ## Claim C7 — connection probe -/

/-- C7 counterexample: the probe's captured line "xokx" does not match
the expected token "ok" exactly, yet `SshCheckConnection` classifies it
Connected, because the code tests `strstr(output, "ok") != NULL`
(substring), not exact equality. -/
theorem c7_counterexample :
    sshCheckConnection (ProbeOutcome.line "xokx") = SshConnectionStatus.connected ∧
    ("xokx" : String) ≠ "ok" := by
  decide

/-- C7 (amended): `SshCheckConnection` results in Connected iff a first
output line was read and that line (truncated to the 63 characters
`fgets` can store) contains "ok" as a substring; `popen` failure, no
output, and a line without "ok" all result in Disconnected. -/
theorem c7_checkConnection_amended (probe : ProbeOutcome) :
    sshCheckConnection probe = SshConnectionStatus.connected ↔
      ∃ s, probe = ProbeOutcome.line s ∧ strContains (strTake s 63) "ok" = true := by
  cases probe with
  | popenFail => simp [sshCheckConnection]
  | noOutput => simp [sshCheckConnection]
  | line s =>
      by_cases h : strContains (strTake s 63) "ok" = true
      · simp [sshCheckConnection, h]
      · simp [sshCheckConnection, h]

/-! ## Claim C10 — refresh never reports failure -/

/-- C10: every `PluginBrowserRefresh` call terminates with
`complete=true`, `success=true`, `progress=1`, `operation=OP_NONE`,
regardless of the local directory (missing, unreadable or empty), the
connection status, and the remote listing outcome. -/
theorem c10_refresh_always_succeeds (localDir : String)
    (dirEntries : Option (List String)) (statSize : String → Option Int)
    (status : SshConnectionStatus) (env : ExecOracle) (st : PluginOpState) :
    (pluginBrowserRefresh localDir dirEntries statSize status env st).opState.complete = true ∧
    (pluginBrowserRefresh localDir dirEntries statSize status env st).opState.success = true ∧
    (pluginBrowserRefresh localDir dirEntries statSize status env st).opState.progress = 1 ∧
    (pluginBrowserRefresh localDir dirEntries statSize status env st).opState.operation =
      PluginOperation.opNone :=
  ⟨rfl, rfl, rfl, rfl⟩

/-! ## Claim C2 — classification invariant -/

/-- The §3 classification invariant on one record: status is the pure
function of the two path-emptiness bits, and both paths are never
empty. -/
def classOk (p : PluginInfo) : Bool :=
  if p.localPath ≠ "" then
    (if p.remotePath ≠ "" then p.status == PluginStatus.installed
     else p.status == PluginStatus.localOnly)
  else
    (decide (p.remotePath ≠ "") && p.status == PluginStatus.deviceOnly)

/-- During the local phase every record has a non-empty local path, an
empty remote path, and status LOCAL_ONLY. -/
def localPhaseInv (p : PluginInfo) : Bool :=
  p.localPath != "" && (p.remotePath == "" && p.status == PluginStatus.localOnly)

theorem foldlInv {σ β : Type} {I : σ → Prop} (f : σ → β → σ)
    (hstep : ∀ s b, I s → I (f s b)) :
    ∀ (xs : List β) (s : σ), I s → I (xs.foldl f s)
  | [], _, h => h
  | x :: xs, s, h => foldlInv f hstep xs (f s x) (hstep s x h)

theorem all_set {α : Type} (P : α → Bool) :
    ∀ (l : List α) (i : Nat) (v : α), l.all P = true → P v = true →
      (l.set i v).all P = true
  | [], _, _, h, _ => h
  | _ :: l, 0, v, h, hv => by
      simp only [List.set, List.all_cons, Bool.and_eq_true] at h ⊢
      exact ⟨hv, h.2⟩
  | a :: l, i + 1, v, h, hv => by
      simp only [List.set, List.all_cons, Bool.and_eq_true] at h ⊢
      exact ⟨h.1, all_set P l i v h.2 hv⟩

theorem getD_mem_or_default {α : Type} (l : List α) (i : Nat) (d : α) :
    l.getD i d ∈ l ∨ l.getD i d = d := by
  by_cases h : i < l.length
  · left
    rw [List.getD_eq_getElem l d h]
    exact List.getElem_mem h
  · right
    exact List.getD_eq_default l d (le_of_not_lt h)

theorem set_append_last {α : Type} :
    ∀ (l : List α) (e v : α), (l ++ [e]).set l.length v = l ++ [v]
  | [], _, _ => rfl
  | x :: xs, e, v => congrArg (List.cons x) (set_append_last xs e v)

theorem getD_append_last {α : Type} :
    ∀ (l : List α) (e d : α), (l ++ [e]).getD l.length d = e
  | [], _, _ => rfl
  | x :: xs, e, d => by
      simp only [List.cons_append, List.length_cons, List.getD_cons_succ]
      exact getD_append_last xs e d

theorem findOrCreateIdx_cases (ps : List PluginInfo) (name : String)
    (ps' : List PluginInfo) (i : Nat)
    (h : findOrCreateIdx ps name = some (ps', i)) :
    ps' = ps ∨ (ps' = ps ++ [emptyPlugin name] ∧ i = ps.length) := by
  unfold findOrCreateIdx at h
  cases hf : ps.findIdx? (fun p => p.name == name) with
  | some j =>
      rw [hf] at h
      simp only [Option.some.injEq, Prod.mk.injEq] at h
      exact Or.inl h.1.symm
  | none =>
      rw [hf] at h
      by_cases hl : ps.length < maxPlugins
      · rw [if_pos hl] at h
        simp only [Option.some.injEq, Prod.mk.injEq] at h
        exact Or.inr ⟨h.1.symm, h.2.symm⟩
      · rw [if_neg hl] at h
        exact absurd h (by simp)

theorem strTake_ne_empty (s : String) (n : Nat) (hn : n ≠ 0)
    (hs : s.data ≠ []) : strTake s n ≠ "" := by
  unfold strTake
  intro h
  have hd : s.data.take n = [] := by
    have := congrArg String.data h
    simpa using this
  rcases List.take_eq_nil_iff.mp hd with h0 | h0
  · exact hn h0
  · exact hs h0

theorem localPath_ne_empty (localDir fname : String) :
    strTake (localDir ++ "/" ++ fname) 511 ≠ "" := by
  apply strTake_ne_empty _ _ (by decide)
  simp [String.data_append]

theorem remotePath_ne_empty (name : String) :
    strTake (sshPluginPath ++ "/" ++ name ++ ".so") 511 ≠ "" := by
  apply strTake_ne_empty _ _ (by decide)
  simp [String.data_append, sshPluginPath]

theorem localPhaseInv_fields (q : PluginInfo) (h : localPhaseInv q = true) :
    q.localPath ≠ "" ∧ q.remotePath = "" ∧ q.status = PluginStatus.localOnly := by
  simp only [localPhaseInv, Bool.and_eq_true, bne_iff_ne, beq_iff_eq] at h
  exact ⟨h.1, h.2.1, h.2.2⟩

theorem localPhaseInv_setLocal (statSize : String → Option Int) (path : String)
    (hpath : path ≠ "") (q : PluginInfo)
    (hq : q.remotePath = "" ∧ q.status = PluginStatus.localOnly) :
    localPhaseInv (match statSize path with
                   | some sz => { q with localPath := path, localSize := sz }
                   | none => { q with localPath := path }) = true := by
  cases statSize path with
  | none => simp [localPhaseInv, hpath, hq.1, hq.2]
  | some sz => simp [localPhaseInv, hpath, hq.1, hq.2]

theorem classOk_remoteUpdate (rpath : String) (hr : rpath ≠ "") (sz : Int)
    (q : PluginInfo) :
    classOk { q with
               remotePath := rpath
               remoteSize := sz
               status := if q.localPath ≠ "" then PluginStatus.installed
                         else PluginStatus.deviceOnly } = true := by
  by_cases hl : q.localPath = ""
  · simp [classOk, hl, hr]
  · simp [classOk, hl, hr]

theorem scanLocalStep_all (localDir : String) (statSize : String → Option Int)
    (ps : List PluginInfo) (fname : String)
    (h : ps.all localPhaseInv = true) :
    (scanLocalStep localDir statSize ps fname).all localPhaseInv = true := by
  simp only [scanLocalStep]
  by_cases hso : isSoFile fname = true
  · rw [if_pos hso]
    cases hfc : findOrCreateIdx ps (extractPluginName fname) with
    | none => exact h
    | some pr =>
        obtain ⟨ps', i⟩ := pr
        have hpath := localPath_ne_empty localDir fname
        rcases findOrCreateIdx_cases ps _ ps' i hfc with hcase | ⟨hps', hi⟩
        · subst hcase
          dsimp only [modifyAt]
          apply all_set _ _ _ _ h
          rcases getD_mem_or_default ps' i (emptyPlugin "") with hm | hd
          · exact localPhaseInv_setLocal statSize _ hpath _
              ⟨(localPhaseInv_fields _ (List.all_eq_true.mp h _ hm)).2.1,
               (localPhaseInv_fields _ (List.all_eq_true.mp h _ hm)).2.2⟩
          · rw [hd]
            exact localPhaseInv_setLocal statSize _ hpath _ ⟨rfl, rfl⟩
        · subst hps'
          subst hi
          dsimp only [modifyAt]
          rw [getD_append_last, set_append_last, List.all_append]
          rw [Bool.and_eq_true]
          refine ⟨h, ?_⟩
          simp only [List.all_cons, List.all_nil, Bool.and_true]
          exact localPhaseInv_setLocal statSize _ hpath _ ⟨rfl, rfl⟩
  · rw [if_neg hso]
    exact h

theorem scanLocalPlugins_all (localDir : String)
    (dirEntries : Option (List String)) (statSize : String → Option Int)
    (ps : List PluginInfo) (h : ps.all localPhaseInv = true) :
    (scanLocalPlugins localDir dirEntries statSize ps).all localPhaseInv = true := by
  unfold scanLocalPlugins
  by_cases hl : localDir = ""
  · rw [if_pos hl]
    exact h
  · rw [if_neg hl]
    cases dirEntries with
    | none => exact h
    | some entries =>
        exact foldlInv _ (fun s b hs => scanLocalStep_all localDir statSize s b hs)
          entries ps h

theorem all_classOk_of_localPhase (ps : List PluginInfo)
    (h : ps.all localPhaseInv = true) : ps.all classOk = true := by
  rw [List.all_eq_true] at h ⊢
  intro x hx
  obtain ⟨h1, h2, h3⟩ := localPhaseInv_fields x (h x hx)
  simp [classOk, h1, h2, h3]

theorem scanRemoteStep_all (st : List PluginInfo × ExecOracle × List String)
    (line : String) (h : st.1.all classOk = true) :
    (scanRemoteStep st line).1.all classOk = true := by
  simp only [scanRemoteStep]
  by_cases hso : isSoFile (String.mk (afterLastSlash line.data)) = true
  · rw [if_pos hso]
    cases hfc : findOrCreateIdx st.1
        (extractPluginName (String.mk (afterLastSlash line.data))) with
    | none => exact h
    | some pr =>
        obtain ⟨ps', i⟩ := pr
        have hr := remotePath_ne_empty
          (extractPluginName (String.mk (afterLastSlash line.data)))
        rcases findOrCreateIdx_cases _ _ _ _ hfc with hcase | ⟨hps', hi⟩
        · subst hcase
          exact all_set _ _ _ _ h (classOk_remoteUpdate _ hr _ _)
        · subst hps'
          subst hi
          dsimp only [modifyAt]
          rw [getD_append_last, set_append_last, List.all_append, Bool.and_eq_true]
          refine ⟨h, ?_⟩
          simp only [List.all_cons, List.all_nil, Bool.and_true]
          exact classOk_remoteUpdate _ hr _ _
  · rw [if_neg hso]
    exact h

theorem scanRemotePlugins_all (status : SshConnectionStatus)
    (ps : List PluginInfo) (env : ExecOracle) (h : ps.all classOk = true) :
    (scanRemotePlugins status ps env).1.all classOk = true := by
  simp only [scanRemotePlugins]
  by_cases hs : status ≠ SshConnectionStatus.connected
  · rw [if_pos hs]
    exact h
  · rw [if_neg hs]
    split
    · exact h
    · refine foldlInv (I := fun t => t.1.all classOk = true) scanRemoteStep
        (fun s b hs => scanRemoteStep_all s b hs) _ _ ?_
      exact h

/-- C2: after any `PluginBrowserRefresh`, every record of the inventory
satisfies the classification invariant: status is exactly determined by
the pair (localPath non-empty, remotePath non-empty) — both give
PLUGIN_INSTALLED, remote-only gives PLUGIN_DEVICE_ONLY, local-only
gives PLUGIN_LOCAL_ONLY — and no record has both paths empty. -/
theorem c2_classification_invariant (localDir : String)
    (dirEntries : Option (List String)) (statSize : String → Option Int)
    (status : SshConnectionStatus) (env : ExecOracle) (st : PluginOpState) :
    ((pluginBrowserRefresh localDir dirEntries statSize status env st).plugins.all
      classOk) = true := by
  have h1 := scanLocalPlugins_all localDir dirEntries statSize [] rfl
  have h2 := all_classOk_of_localPhase _ h1
  exact scanRemotePlugins_all status _ env h2

/-! ## Concrete fixtures used by counterexamples and witnesses -/

/-- A locally-present plugin record, as the local scan produces it. -/
def fooLocal : PluginInfo :=
  { name := "foo", displayName := "Foo", localPath := "/plugins/foo.so",
    remotePath := "", localSize := 5, remoteSize := 0,
    status := PluginStatus.localOnly }

/-- A device-present plugin record, as the remote scan produces it. -/
def fooRemote : PluginInfo :=
  { name := "foo", displayName := "Foo", localPath := "",
    remotePath := "/tmp/plugins/foo.so", localSize := 0, remoteSize := 42,
    status := PluginStatus.deviceOnly }

/-- The zero-initialized operation state (`memset` in
`PluginBrowserInit`). -/
def opSt0 : PluginOpState :=
  { operation := PluginOperation.opNone, pluginName := "", progress := 0,
    message := "", complete := false, success := false }

/-- An operation state with an operation in flight
(`IsBusy() == true`). -/
def busySt : PluginOpState :=
  { operation := PluginOperation.installing, pluginName := "bar",
    progress := 1/2, message := "m", complete := false, success := false }

/-! ## Claim C9 — local-only scan scenario -/

/-- C9 counterexample: local directory contains exactly foo.so and the
device is disconnected; the single scanned record's remoteSize is 0
(the zero-initialized default of `FindOrCreatePlugin`), not the -1
unknown marker the claim names. -/
theorem c9_counterexample :
    ((pluginBrowserRefresh "/plugins" (some ["foo.so"]) (fun _ => some 100)
        SshConnectionStatus.disconnected [] opSt0).plugins.map
      (fun p => p.remoteSize)) = [0] ∧
    ¬ ((pluginBrowserRefresh "/plugins" (some ["foo.so"]) (fun _ => some 100)
        SshConnectionStatus.disconnected [] opSt0).plugins.map
      (fun p => p.remoteSize)) = [-1] := by
  constructor
  · rfl
  · intro h
    have he : ([(0 : Int)] = [(-1 : Int)]) :=
      (rfl :
        ((pluginBrowserRefresh "/plugins" (some ["foo.so"]) (fun _ => some 100)
            SshConnectionStatus.disconnected [] opSt0).plugins.map
          (fun p => p.remoteSize)) = [0]).symm.trans h
    exact absurd he (by decide)

/-- C9 (amended): when the local directory contains exactly foo.so and
the cached status is not Connected, `Refresh` skips the remote scan
entirely (no remote command is issued, the oracle is untouched) and
yields exactly one record, classified LocalOnly with empty remotePath;
its remoteSize is 0, the zero-initialized default, not -1 (the -1
marker appears only when a remote stat fails during a connected
scan). -/
theorem c9_localOnly_scan_amended (localDir : String) (hdir : localDir ≠ "")
    (statSize : String → Option Int) (status : SshConnectionStatus)
    (hst : status ≠ SshConnectionStatus.connected) (env : ExecOracle)
    (st : PluginOpState) :
    ((pluginBrowserRefresh localDir (some ["foo.so"]) statSize status env st).plugins.map
        (fun p => (p.name, p.status, p.remotePath, p.remoteSize)) =
      [("foo", PluginStatus.localOnly, "", 0)]) ∧
    (pluginBrowserRefresh localDir (some ["foo.so"]) statSize status env st).cmds = [] ∧
    (pluginBrowserRefresh localDir (some ["foo.so"]) statSize status env st).env = env := by
  refine ⟨?_, ?_, ?_⟩
  · simp only [pluginBrowserRefresh, scanRemotePlugins, if_pos hst, scanLocalPlugins,
      if_neg hdir, List.foldl, scanLocalStep]
    cases hss : statSize (strTake (localDir ++ "/" ++ "foo.so") 511) with
    | none => rfl
    | some sz => rfl
  · simp only [pluginBrowserRefresh, scanRemotePlugins, if_pos hst]
  · simp only [pluginBrowserRefresh, scanRemotePlugins, if_pos hst]

/-- C9 amended-claim witness at a concrete input. -/
theorem c9_witness :
    ("/plugins" : String) ≠ "" ∧
    SshConnectionStatus.disconnected ≠ SshConnectionStatus.connected ∧
    ((pluginBrowserRefresh "/plugins" (some ["foo.so"]) (fun _ => some 100)
        SshConnectionStatus.disconnected [] opSt0).plugins.map
        (fun p => (p.name, p.status, p.remotePath, p.remoteSize)) =
      [("foo", PluginStatus.localOnly, "", 0)]) :=
  ⟨by decide, by decide,
   (c9_localOnly_scan_amended "/plugins" (by decide) (fun _ => some 100)
      SshConnectionStatus.disconnected (by decide) [] opSt0).1⟩

/-! ## Claim C5 — rejection is effect-free -/

/-- C5: an `Install` on an unknown artifact or one with empty localPath
returns false, issues no `SshExecute` command, never invokes
`SshCopyToDevice`, and leaves every OperationState field except the
message unchanged; the same frame holds for the not-connected
rejection. -/
theorem c5_install_rejection_frame (plugins : List PluginInfo) (name : String)
    (status : SshConnectionStatus) (env : InstallEnv) (st : PluginOpState) :
    ((pluginBrowserFindPlugin plugins name = none ∨
        (∃ p, pluginBrowserFindPlugin plugins name = some p ∧ p.localPath = "")) →
      (pluginBrowserInstall plugins name status env st).ret = false ∧
      (pluginBrowserInstall plugins name status env st).cmds = [] ∧
      (pluginBrowserInstall plugins name status env st).copyAttempted = false ∧
      (pluginBrowserInstall plugins name status env st).env = env.exec ∧
      (pluginBrowserInstall plugins name status env st).opState =
        { st with message := (pluginBrowserInstall plugins name status env st).opState.message }) ∧
    (status ≠ SshConnectionStatus.connected →
      (pluginBrowserInstall plugins name status env st).ret = false ∧
      (pluginBrowserInstall plugins name status env st).cmds = [] ∧
      (pluginBrowserInstall plugins name status env st).copyAttempted = false ∧
      (pluginBrowserInstall plugins name status env st).env = env.exec ∧
      (pluginBrowserInstall plugins name status env st).opState =
        { st with message := (pluginBrowserInstall plugins name status env st).opState.message }) := by
  constructor
  · intro h
    cases hfind : pluginBrowserFindPlugin plugins name with
    | none =>
        simp [pluginBrowserInstall, hfind]
    | some p =>
        have hlp : p.localPath = "" := by
          rcases h with h | ⟨q, hq, hq2⟩
          · rw [hfind] at h; cases h
          · rw [hfind] at hq
            cases hq
            exact hq2
        simp [pluginBrowserInstall, hfind, if_pos hlp]
  · intro hst
    cases hfind : pluginBrowserFindPlugin plugins name with
    | none =>
        simp [pluginBrowserInstall, hfind]
    | some p =>
        by_cases hlp : p.localPath = ""
        · simp [pluginBrowserInstall, hfind, if_pos hlp]
        · simp [pluginBrowserInstall, hfind, if_neg hlp, if_pos hst]

/-- C5 witness: an unknown plugin on a disconnected device. -/
theorem c5_witness :
    (pluginBrowserFindPlugin [] "x" = none) ∧
    (SshConnectionStatus.disconnected ≠ SshConnectionStatus.connected) ∧
    (pluginBrowserInstall [] "x" SshConnectionStatus.disconnected
        ⟨[], true, CopyOutcome.popenFail⟩ opSt0).ret = false ∧
    (pluginBrowserInstall [] "x" SshConnectionStatus.disconnected
        ⟨[], true, CopyOutcome.popenFail⟩ opSt0).cmds = [] ∧
    (pluginBrowserInstall [] "x" SshConnectionStatus.disconnected
        ⟨[], true, CopyOutcome.popenFail⟩ opSt0).copyAttempted = false :=
  have h := c5_install_rejection_frame [] "x" SshConnectionStatus.disconnected
    ⟨[], true, CopyOutcome.popenFail⟩ opSt0
  have h1 := h.1 (Or.inl rfl)
  ⟨rfl, by decide, h1.1, h1.2.1, h1.2.2.1⟩

/-! ## Claim C4 — install success criterion, best-effort steps -/

/-- C4: for every accepted install — any outcome of the remount and
mkdir steps, including failure — the sequence is not aborted: the
mount and mkdir commands are both issued, the copy is attempted, and
the returned bool and the final `success` equal exactly the copy
step's result, with `complete=true` and `kind=None` on exit; the sync
command runs exactly when the copy succeeded. -/
theorem c4_install_success_is_copy (plugins : List PluginInfo) (name : String)
    (env : InstallEnv) (st : PluginOpState) (p : PluginInfo)
    (hfind : pluginBrowserFindPlugin plugins name = some p)
    (hlocal : p.localPath ≠ "") :
    (pluginBrowserInstall plugins name SshConnectionStatus.connected env st).ret =
      (sshCopyToDevice env.copyReadable env.copyOutcome).1 ∧
    (pluginBrowserInstall plugins name SshConnectionStatus.connected env st).opState.success =
      (sshCopyToDevice env.copyReadable env.copyOutcome).1 ∧
    (pluginBrowserInstall plugins name SshConnectionStatus.connected env st).opState.complete =
      true ∧
    (pluginBrowserInstall plugins name SshConnectionStatus.connected env st).opState.operation =
      PluginOperation.opNone ∧
    (pluginBrowserInstall plugins name SshConnectionStatus.connected env st).copyAttempted =
      true ∧
    (pluginBrowserInstall plugins name SshConnectionStatus.connected env st).cmds =
      ["mount -o remount,rw /", "mkdir -p " ++ sshPluginPath] ++
        (if (sshCopyToDevice env.copyReadable env.copyOutcome).1 then ["sync"] else []) := by
  cases hsucc : (sshCopyToDevice env.copyReadable env.copyOutcome).1 <;>
    simp [pluginBrowserInstall, hfind, hlocal, hsucc]

/-- C4 witness: remount and mkdir both fail (`popen` failure) yet the
install succeeds because the copy succeeds. -/
theorem c4_witness :
    (pluginBrowserFindPlugin [fooLocal] "foo" = some fooLocal) ∧
    fooLocal.localPath ≠ "" ∧
    (pluginBrowserInstall [fooLocal] "foo" SshConnectionStatus.connected
        ⟨[ExecOutcome.popenFail, ExecOutcome.popenFail], true, CopyOutcome.ran "" 0⟩
        opSt0).ret = true ∧
    (pluginBrowserInstall [fooLocal] "foo" SshConnectionStatus.connected
        ⟨[ExecOutcome.popenFail, ExecOutcome.popenFail], true, CopyOutcome.ran "" 0⟩
        opSt0).cmds = ["mount -o remount,rw /", "mkdir -p /tmp/plugins", "sync"] :=
  have h := c4_install_success_is_copy [fooLocal] "foo"
    ⟨[ExecOutcome.popenFail, ExecOutcome.popenFail], true, CopyOutcome.ran "" 0⟩
    opSt0 fooLocal rfl (by decide)
  ⟨rfl, by decide, h.1.trans (by decide), h.2.2.2.2.2.trans (by decide)⟩

/-! ## Claim C3 — uninstall success criterion -/

theorem sshExecute_snd (env : ExecOracle) : (sshExecute env).2 = env.drop 1 := by
  cases env with
  | nil => rfl
  | cons e rest => cases e <;> rfl

/-- C3: for every accepted uninstall, the returned bool and the final
`success` equal exactly the negation of the post-cleanup
`SshFileExists` check — evaluated on the oracle after the seven
preceding commands — and the operation finalizes with `complete=true`
and `kind=None`; in particular a delete that reported success cannot
make the operation succeed if the file still exists. -/
theorem c3_uninstall_success_criterion (plugins : List PluginInfo) (name : String)
    (env : ExecOracle) (st : PluginOpState) (p : PluginInfo)
    (hfind : pluginBrowserFindPlugin plugins name = some p)
    (hremote : p.remotePath ≠ "") :
    (pluginBrowserUninstall plugins name SshConnectionStatus.connected env st).ret =
      !(sshFileExists p.remotePath (env.drop 7)).1 ∧
    (pluginBrowserUninstall plugins name SshConnectionStatus.connected env st).opState.success =
      !(sshFileExists p.remotePath (env.drop 7)).1 ∧
    (pluginBrowserUninstall plugins name SshConnectionStatus.connected env st).opState.complete =
      true ∧
    (pluginBrowserUninstall plugins name SshConnectionStatus.connected env st).opState.operation =
      PluginOperation.opNone := by
  have h7 : (sshExecute (sshExecute (sshExecute (sshExecute (sshExecute (sshExecute
      (sshExecute env).2).2).2).2).2).2).2 = env.drop 7 := by
    simp only [sshExecute_snd, List.drop_drop]
  simp [pluginBrowserUninstall, hfind, hremote, h7]

/-- C3 witness: the delete command (the fourth remote command) reports
success, yet the existence check still finds the file, so the
uninstall returns false. -/
theorem c3_witness :
    (pluginBrowserFindPlugin [fooRemote] "foo" = some fooRemote) ∧
    fooRemote.remotePath ≠ "" ∧
    (pluginBrowserUninstall [fooRemote] "foo" SshConnectionStatus.connected
        [ExecOutcome.ran "" 0, ExecOutcome.ran "" 0, ExecOutcome.ran "" 0,
         ExecOutcome.ran "" 0, ExecOutcome.ran "" 0, ExecOutcome.ran "" 0,
         ExecOutcome.ran "" 0, ExecOutcome.ran "exists" 0] opSt0).ret = false ∧
    (pluginBrowserUninstall [fooRemote] "foo" SshConnectionStatus.connected
        [ExecOutcome.ran "" 0, ExecOutcome.ran "" 0, ExecOutcome.ran "" 0,
         ExecOutcome.ran "" 0, ExecOutcome.ran "" 0, ExecOutcome.ran "" 0,
         ExecOutcome.ran "" 0, ExecOutcome.ran "exists" 0] opSt0).opState.success = false :=
  have h := c3_uninstall_success_criterion [fooRemote] "foo"
    [ExecOutcome.ran "" 0, ExecOutcome.ran "" 0, ExecOutcome.ran "" 0,
     ExecOutcome.ran "" 0, ExecOutcome.ran "" 0, ExecOutcome.ran "" 0,
     ExecOutcome.ran "" 0, ExecOutcome.ran "exists" 0] opSt0 fooRemote rfl (by decide)
  ⟨rfl, by decide, h.1.trans (by decide), h.2.1.trans (by decide)⟩

/-! ## Claim C6 — install progress monotonicity -/

/-- A progress trace is monotonically non-decreasing. -/
def progressMonotone : List ℚ → Bool
  | [] => true
  | [_] => true
  | a :: b :: rest => decide (a ≤ b) && progressMonotone (b :: rest)

/-- C6 counterexample: an accepted install whose copy succeeds writes
the progress sequence 0, 0.1, 0.2, 0.1, 0.3, 0.9, 1, 0.95, which is
not monotonically non-decreasing (0.2 is followed by the copy
callback's 0.1, and the callback's final 1 by the sync step's
0.95). -/
theorem c6_counterexample :
    (pluginBrowserInstall [fooLocal] "foo" SshConnectionStatus.connected
        ⟨[], true, CopyOutcome.ran "" 0⟩ opSt0).ret = true ∧
    progressMonotone
        ((pluginBrowserInstall [fooLocal] "foo" SshConnectionStatus.connected
          ⟨[], true, CopyOutcome.ran "" 0⟩ opSt0).progressWrites) = false := by
  constructor
  · rfl
  · have hw : (pluginBrowserInstall [fooLocal] "foo" SshConnectionStatus.connected
        ⟨[], true, CopyOutcome.ran "" 0⟩ opSt0).progressWrites =
        [0, 1/10, 2/10, 1/10, 3/10, 9/10, 1, 19/20] := rfl
    rw [hw]
    norm_num [progressMonotone]

/-- C6 (amended): for every accepted install whose copy transfer
succeeds, the successive values written to `OperationState.progress`
are exactly 0, 0.1, 0.2, 0.1, 0.3, 0.9, 1, 0.95; the sequence is not
monotone: the copy callback restarts below the mkdir step's 0.2, and
the sync step's 0.95 is written after the callback has reached 1. -/
theorem c6_install_progress_amended (plugins : List PluginInfo) (name : String)
    (env : InstallEnv) (st : PluginOpState) (p : PluginInfo) (out : String)
    (hfind : pluginBrowserFindPlugin plugins name = some p)
    (hlocal : p.localPath ≠ "")
    (hread : env.copyReadable = true)
    (hcopy : env.copyOutcome = CopyOutcome.ran out 0) :
    (pluginBrowserInstall plugins name SshConnectionStatus.connected env st).progressWrites =
      [0, 1/10, 2/10, 1/10, 3/10, 9/10, 1, 19/20] ∧
    progressMonotone ([0, 1/10, 2/10, 1/10, 3/10, 9/10, 1, 19/20] : List ℚ) = false := by
  constructor
  · simp [pluginBrowserInstall, hfind, hlocal, sshCopyToDevice, hread, hcopy]
  · norm_num [progressMonotone]

/-- C6 amended-claim witness at a concrete input. -/
theorem c6_witness :
    (pluginBrowserFindPlugin [fooLocal] "foo" = some fooLocal) ∧
    fooLocal.localPath ≠ "" ∧
    (pluginBrowserInstall [fooLocal] "foo" SshConnectionStatus.connected
        ⟨[], true, CopyOutcome.ran "" 0⟩ opSt0).progressWrites =
      [0, 1/10, 2/10, 1/10, 3/10, 9/10, 1, 19/20] :=
  ⟨rfl, by decide,
   (c6_install_progress_amended [fooLocal] "foo" ⟨[], true, CopyOutcome.ran "" 0⟩
      opSt0 fooLocal "" rfl (by decide) rfl rfl).1⟩

/-! ## Claim C1 — single-flight -/

/-- C1 counterexample: with an operation already in flight
(`IsBusy() == true`), a call to `PluginBrowserInstall` on a known,
locally-present plugin while connected is not rejected: it proceeds,
returns true, and rewrites OperationState beyond its message — the
orchestrator never consults the busy flag. -/
theorem c1_counterexample :
    pluginBrowserIsBusy busySt = true ∧
    (pluginBrowserInstall [fooLocal] "foo" SshConnectionStatus.connected
        ⟨[], true, CopyOutcome.ran "" 0⟩ busySt).ret = true ∧
    (pluginBrowserInstall [fooLocal] "foo" SshConnectionStatus.connected
          ⟨[], true, CopyOutcome.ran "" 0⟩ busySt).opState.operation ≠
      busySt.operation := by
  refine ⟨rfl, rfl, ?_⟩
  decide

/-- C1 (amended): `Install`, `Uninstall` and `Refresh` never consult
the busy flag; they reject only for an unknown artifact, a missing
side path, or a not-connected status.  What holds instead: every call
either finalizes with `kind=None` (so `IsBusy()` is false on exit) or
was rejected leaving OperationState unchanged except its message —
hence in the single-threaded execution model no public call ever
starts while `IsBusy()` is true. -/
theorem c1_busy_flag_amended (plugins : List PluginInfo) (name : String)
    (status : SshConnectionStatus) (envI : InstallEnv) (envU : ExecOracle)
    (st : PluginOpState) (localDir : String) (dirEntries : Option (List String))
    (statSize : String → Option Int) (envR : ExecOracle) :
    ((pluginBrowserInstall plugins name status envI st).opState.operation =
        PluginOperation.opNone ∨
      ((pluginBrowserInstall plugins name status envI st).ret = false ∧
       (pluginBrowserInstall plugins name status envI st).opState =
         { st with message := (pluginBrowserInstall plugins name status envI st).opState.message })) ∧
    ((pluginBrowserUninstall plugins name status envU st).opState.operation =
        PluginOperation.opNone ∨
      ((pluginBrowserUninstall plugins name status envU st).ret = false ∧
       (pluginBrowserUninstall plugins name status envU st).opState =
         { st with message := (pluginBrowserUninstall plugins name status envU st).opState.message })) ∧
    (pluginBrowserRefresh localDir dirEntries statSize status envR st).opState.operation =
      PluginOperation.opNone := by
  refine ⟨?_, ?_, rfl⟩
  · cases hfind : pluginBrowserFindPlugin plugins name with
    | none => right; simp [pluginBrowserInstall, hfind]
    | some p =>
        by_cases hlp : p.localPath = ""
        · right
          simp [pluginBrowserInstall, hfind, hlp]
        · by_cases hst : status ≠ SshConnectionStatus.connected
          · right
            simp [pluginBrowserInstall, hfind, hlp, hst]
          · left
            cases hsucc : (sshCopyToDevice envI.copyReadable envI.copyOutcome).1 <;>
              simp [pluginBrowserInstall, hfind, hlp, hst, hsucc]
  · cases hfind : pluginBrowserFindPlugin plugins name with
    | none => right; simp [pluginBrowserUninstall, hfind]
    | some p =>
        by_cases hrp : p.remotePath = ""
        · right
          simp [pluginBrowserUninstall, hfind, hrp]
        · by_cases hst : status ≠ SshConnectionStatus.connected
          · right
            simp [pluginBrowserUninstall, hfind, hrp, hst]
          · left
            simp [pluginBrowserUninstall, hfind, hrp, hst]

end Salamander
